import Mathlib

/-!
Shallow embedding of `src/main/main.c` (a Pong game for an ESP32 with an
ST7789 display), restricted to its hardware-independent core: the speed
ramp, the physics step, the debounce logic, the rectangle renderer and the
main loop's per-tick state transition.  C `int` values are modelled as
`Int`; C integer division (truncation toward zero) is `Int.tdiv`.  The
screen dimensions and the ball size come from Kconfig and are therefore
parameters `W`, `H`, `BS` of the definitions.  The framebuffer is an
`Option` of a linearly indexed pixel array, `none` modelling the null
pointer after a failed allocation.
-/

namespace Pong

/-- `#define BALL_BASE_SPEED 1` -/
def BALL_BASE_SPEED : Int := 1

/-- `#define BALL_SPEED_STEP_HITS 5` -/
def BALL_SPEED_STEP_HITS : Int := 5

/-- `#define BALL_MAX_SPEED 6` -/
def BALL_MAX_SPEED : Int := 6

/-- `#define FAIL_LIMIT 10` -/
def FAIL_LIMIT : Int := 10

/-- `#define PADDLE_H 4` -/
def PADDLE_H : Int := 4

/-- `#define PADDLE_W (SCREEN_W / 5)`, a function of the configured width. -/
def PADDLE_W (W : Int) : Int := W.tdiv 5

/-- `ball_t`: position and velocity, C `int` fields. -/
structure ball_t where
  x : Int
  y : Int
  vx : Int
  vy : Int
  deriving Repr, DecidableEq

/-- The four objects `game_step` reads and writes through pointers:
the ball, `paddle->x`, `*hits` and `*misses`. -/
structure GameEnts where
  ball : ball_t
  paddle : Int
  hits : Int
  misses : Int
  deriving Repr, DecidableEq

/-- `game_reset`: paddle centered, ball centered with base velocity,
counters cleared. -/
def game_reset (W H : Int) : GameEnts :=
  { paddle := W.tdiv 2 - (PADDLE_W W).tdiv 2
    ball := { x := W.tdiv 2, y := H.tdiv 2, vx := BALL_BASE_SPEED, vy := BALL_BASE_SPEED }
    hits := 0
    misses := 0 }

/-- `ball_speed_for_hits`: base speed plus one per `BALL_SPEED_STEP_HITS`
hits, capped at `BALL_MAX_SPEED`. -/
def ball_speed_for_hits (hits : Int) : Int :=
  let speed := BALL_BASE_SPEED + hits.tdiv BALL_SPEED_STEP_HITS
  if speed > BALL_MAX_SPEED then BALL_MAX_SPEED else speed

/-- `game_step`: integrate the ball, mirror on side/top walls, then resolve
the paddle band: overlap with the paddle is a hit (bounce up, speed ramp),
reaching the bottom without overlap is a miss (recenter, base speed,
horizontal direction flipped). -/
def game_step (W H BS : Int) (g : GameEnts) : GameEnts :=
  let x1 := g.ball.x + g.ball.vx
  let y1 := g.ball.y + g.ball.vy
  let vx1 := if x1 ≤ 0 ∨ x1 + BS ≥ W then -g.ball.vx else g.ball.vx
  let vy1 := if y1 ≤ 0 then -g.ball.vy else g.ball.vy
  let paddle_y := H - PADDLE_H - 2
  if y1 + BS ≥ paddle_y then
    if x1 + BS ≥ g.paddle ∧ x1 ≤ g.paddle + PADDLE_W W then
      let hits1 := g.hits + 1
      let speed := ball_speed_for_hits hits1
      { ball := { x := x1, y := paddle_y - BS - 1
                  vx := if vx1 < 0 then -speed else speed, vy := -speed }
        paddle := g.paddle, hits := hits1, misses := g.misses }
    else if y1 + BS ≥ H then
      let speed := ball_speed_for_hits 0
      { ball := { x := W.tdiv 2, y := H.tdiv 2
                  vx := if vx1 > 0 then -speed else speed, vy := speed }
        paddle := g.paddle, hits := g.hits, misses := g.misses + 1 }
    else
      { ball := { x := x1, y := y1, vx := vx1, vy := vy1 }
        paddle := g.paddle, hits := g.hits, misses := g.misses }
  else
    { ball := { x := x1, y := y1, vx := vx1, vy := vy1 }
      paddle := g.paddle, hits := g.hits, misses := g.misses }

/-- `clamp(value, min, max)` from the source. -/
def clamp (value lo hi : Int) : Int :=
  if value < lo then lo
  else if value > hi then hi
  else value

/-- The ball initializer in `app_main` (center of the screen, base speed on
both axes). -/
def initial_ball (W H : Int) : ball_t :=
  { x := W.tdiv 2, y := H.tdiv 2, vx := BALL_BASE_SPEED, vy := BALL_BASE_SPEED }

/-- `#define COLOR_BLACK 0x0000` -/
def COLOR_BLACK : Nat := 0x0000

/-- `#define COLOR_WHITE 0xFFFF` -/
def COLOR_WHITE : Nat := 0xFFFF

/-- The framebuffer contents: linear (row-major) pixel index to RGB565
value.  `s_framebuffer` itself is an `Option Fb`, `none` being the null
pointer left behind by a failed allocation. -/
abbrev Fb := Nat → Nat

/-- The inner loop of `display_draw_rect` (and, with `base = 0`, the loop
of `display_clear`): write `color` to the `w` consecutive cells starting at
linear index `base`. -/
def fill_row (buf : Fb) (base color : Nat) : Nat → Fb
  | 0 => buf
  | w + 1 => Function.update (fill_row buf base color w) (base + w) color

/-- The outer loop of `display_draw_rect`: fill `h` rows of width `w`
starting at column `x` of row `y`, in a buffer whose row stride is `Wn`. -/
def fill_rows (buf : Fb) (Wn x y w color : Nat) : Nat → Fb
  | 0 => buf
  | h + 1 => fill_row (fill_rows buf Wn x y w color h) ((y + h) * Wn + x) color w

/-- `display_clear`: null check, then write `color` to every cell of the
`SCREEN_W * SCREEN_H` buffer. -/
def display_clear (W H : Int) (fb : Option Fb) (color : Nat) : Option Fb :=
  match fb with
  | none => none
  | some buf => some (fill_row buf 0 color (W * H).toNat)

/-- `display_draw_rect`: null check, clip the rectangle against the screen
(negative origin shrinks the extent and moves the origin to 0; overflow
past the far edge shrinks the extent), drop empty results, then fill. -/
def display_draw_rect (W H : Int) (fb : Option Fb) (x y w h : Int) (color : Nat) : Option Fb :=
  match fb with
  | none => none
  | some buf =>
    let x1 := if x < 0 then 0 else x
    let w1 := if x < 0 then w + x else w
    let y1 := if y < 0 then 0 else y
    let h1 := if y < 0 then h + y else h
    let w2 := if x1 + w1 > W then W - x1 else w1
    let h2 := if y1 + h1 > H then H - y1 else h1
    if w2 ≤ 0 ∨ h2 ≤ 0 then some buf
    else some (fill_rows buf W.toNat x1.toNat y1.toNat w2.toNat color h2.toNat)

/-- `display_flush`: the bitmap handed to the panel, `none` when either the
panel handle or the framebuffer is null (nothing is sent, nothing mutated). -/
def display_flush (panel : Bool) (fb : Option Fb) : Option Fb :=
  match panel, fb with
  | false, _ => none
  | true, none => none
  | true, some buf => some buf

/-- `button_t`: input line id (negative = unbound sentinel), debounced
level pair, stability counter and press timestamp. -/
structure button_t where
  gpio : Int
  stable_level : Int
  last_level : Int
  stable_count : Int
  pressed_since : Nat
  deriving Repr, DecidableEq

/-- `button_update`: one debounce tick.  The raw sample `level` resets the
stability counter on change and saturates it at `debounce_cycles`
otherwise; when the counter sits at the threshold and the level differs
from the accepted stable level, the stable level updates, and an active-low
press (level 0) additionally records `pressed_since` and reports an edge. -/
def button_update (btn : button_t) (level : Int) (now : Nat) (debounce_cycles : Int) :
    button_t × Bool :=
  if btn.gpio < 0 then (btn, false)
  else
    let btn1 :=
      if level ≠ btn.last_level then
        { btn with last_level := level, stable_count := 0 }
      else if btn.stable_count < debounce_cycles then
        { btn with stable_count := btn.stable_count + 1 }
      else btn
    if btn1.stable_count = debounce_cycles ∧ level ≠ btn1.stable_level then
      if level = 0 then
        ({ btn1 with stable_level := level, pressed_since := now }, true)
      else
        ({ btn1 with stable_level := level }, false)
    else (btn1, false)

/-- Drive `button_update` over a sequence of raw samples (one per tick),
returning the final button state and the number of press edges raised. -/
def run_samples (debounce_cycles : Int) (btn : button_t) : List Int → button_t × Nat
  | [] => (btn, 0)
  | level :: rest =>
    let r1 := button_update btn level 0 debounce_cycles
    let r2 := run_samples debounce_cycles r1.1 rest
    (r2.1, (if r1.2 then 1 else 0) + r2.2)

/-- `zero_runs_bounded D r samples`: no run of consecutive `0` samples in
`samples` ever grows past `D` ticks, `r` being the length of the `0` run
already in progress.  This is the shape of a press that flips back before
the debounce counter can reach its threshold. -/
def zero_runs_bounded (D : Int) : Int → List Int → Bool
  | _, [] => true
  | r, level :: rest =>
    if level = 0 then decide (r + 1 ≤ D) && zero_runs_bounded D (r + 1) rest
    else zero_runs_bounded D 0 rest

/-- A button in the shape `app_main` creates them: bound to line `g`,
stable released (active-low 1 on both levels), counter at `c`. -/
def released_button (g c : Int) : button_t :=
  { gpio := g, stable_level := 1, last_level := 1, stable_count := c, pressed_since := 0 }

/-- The public-domain 8x8 ASCII font table `font8x8_basic` from the
source: 128 glyphs of 8 row bytes each, most significant bit = leftmost
column. -/
def font8x8_basic : List (List Nat) := [
  [0x00, 0x00, 0x00, 0x00, 0x00, 0x00, 0x00, 0x00],
  [0x7E, 0x81, 0xA5, 0x81, 0xBD, 0x99, 0x81, 0x7E],
  [0x7E, 0xFF, 0xDB, 0xFF, 0xC3, 0xE7, 0xFF, 0x7E],
  [0x6C, 0xFE, 0xFE, 0xFE, 0x7C, 0x38, 0x10, 0x00],
  [0x10, 0x38, 0x7C, 0xFE, 0x7C, 0x38, 0x10, 0x00],
  [0x38, 0x7C, 0x38, 0xFE, 0xFE, 0xD6, 0x10, 0x38],
  [0x10, 0x38, 0x7C, 0xFE, 0xFE, 0x7C, 0x10, 0x38],
  [0x00, 0x00, 0x18, 0x3C, 0x3C, 0x18, 0x00, 0x00],
  [0xFF, 0xFF, 0xE7, 0xC3, 0xC3, 0xE7, 0xFF, 0xFF],
  [0x00, 0x3C, 0x66, 0x42, 0x42, 0x66, 0x3C, 0x00],
  [0xFF, 0xC3, 0x99, 0xBD, 0xBD, 0x99, 0xC3, 0xFF],
  [0x0F, 0x07, 0x0F, 0x7D, 0xCC, 0xCC, 0xCC, 0x78],
  [0x3C, 0x66, 0x66, 0x66, 0x3C, 0x18, 0x7E, 0x18],
  [0x3F, 0x33, 0x3F, 0x30, 0x30, 0x70, 0xF0, 0xE0],
  [0x7F, 0x63, 0x7F, 0x63, 0x63, 0x67, 0xE6, 0xC0],
  [0x99, 0x5A, 0x3C, 0xE7, 0xE7, 0x3C, 0x5A, 0x99],
  [0x80, 0xE0, 0xF8, 0xFE, 0xF8, 0xE0, 0x80, 0x00],
  [0x02, 0x0E, 0x3E, 0xFE, 0x3E, 0x0E, 0x02, 0x00],
  [0x18, 0x3C, 0x7E, 0x18, 0x18, 0x7E, 0x3C, 0x18],
  [0x66, 0x66, 0x66, 0x66, 0x66, 0x00, 0x66, 0x00],
  [0x7F, 0xDB, 0xDB, 0x7B, 0x1B, 0x1B, 0x1B, 0x00],
  [0x3E, 0x63, 0x38, 0x6C, 0x6C, 0x38, 0xCC, 0x78],
  [0x00, 0x00, 0x00, 0x00, 0x7E, 0x7E, 0x7E, 0x00],
  [0x18, 0x3C, 0x7E, 0x18, 0x7E, 0x3C, 0x18, 0xFF],
  [0x18, 0x3C, 0x7E, 0x18, 0x18, 0x18, 0x18, 0x00],
  [0x18, 0x18, 0x18, 0x18, 0x7E, 0x3C, 0x18, 0x00],
  [0x00, 0x18, 0x0C, 0xFE, 0x0C, 0x18, 0x00, 0x00],
  [0x00, 0x30, 0x60, 0xFE, 0x60, 0x30, 0x00, 0x00],
  [0x00, 0x00, 0xC0, 0xC0, 0xC0, 0xFE, 0x00, 0x00],
  [0x00, 0x24, 0x66, 0xFF, 0x66, 0x24, 0x00, 0x00],
  [0x00, 0x18, 0x3C, 0x7E, 0xFF, 0xFF, 0x00, 0x00],
  [0x00, 0xFF, 0xFF, 0x7E, 0x3C, 0x18, 0x00, 0x00],
  [0x00, 0x00, 0x00, 0x00, 0x00, 0x00, 0x00, 0x00],
  [0x18, 0x3C, 0x3C, 0x18, 0x18, 0x00, 0x18, 0x00],
  [0x6C, 0x6C, 0x24, 0x00, 0x00, 0x00, 0x00, 0x00],
  [0x6C, 0x6C, 0xFE, 0x6C, 0xFE, 0x6C, 0x6C, 0x00],
  [0x18, 0x3E, 0x60, 0x3C, 0x06, 0x7C, 0x18, 0x00],
  [0x00, 0xC6, 0xCC, 0x18, 0x30, 0x66, 0xC6, 0x00],
  [0x38, 0x6C, 0x38, 0x76, 0xDC, 0xCC, 0x76, 0x00],
  [0x30, 0x30, 0x60, 0x00, 0x00, 0x00, 0x00, 0x00],
  [0x0C, 0x18, 0x30, 0x30, 0x30, 0x18, 0x0C, 0x00],
  [0x30, 0x18, 0x0C, 0x0C, 0x0C, 0x18, 0x30, 0x00],
  [0x00, 0x66, 0x3C, 0xFF, 0x3C, 0x66, 0x00, 0x00],
  [0x00, 0x18, 0x18, 0x7E, 0x18, 0x18, 0x00, 0x00],
  [0x00, 0x00, 0x00, 0x00, 0x18, 0x18, 0x30, 0x00],
  [0x00, 0x00, 0x00, 0x7E, 0x00, 0x00, 0x00, 0x00],
  [0x00, 0x00, 0x00, 0x00, 0x18, 0x18, 0x00, 0x00],
  [0x06, 0x0C, 0x18, 0x30, 0x60, 0xC0, 0x80, 0x00],
  [0x7C, 0xC6, 0xCE, 0xDE, 0xF6, 0xE6, 0x7C, 0x00],
  [0x18, 0x38, 0x18, 0x18, 0x18, 0x18, 0x7E, 0x00],
  [0x7C, 0xC6, 0x0E, 0x1C, 0x70, 0xC0, 0xFE, 0x00],
  [0x7C, 0xC6, 0x06, 0x3C, 0x06, 0xC6, 0x7C, 0x00],
  [0x1C, 0x3C, 0x6C, 0xCC, 0xFE, 0x0C, 0x1E, 0x00],
  [0xFE, 0xC0, 0xFC, 0x06, 0x06, 0xC6, 0x7C, 0x00],
  [0x3C, 0x60, 0xC0, 0xFC, 0xC6, 0xC6, 0x7C, 0x00],
  [0xFE, 0xC6, 0x0C, 0x18, 0x30, 0x30, 0x30, 0x00],
  [0x7C, 0xC6, 0xC6, 0x7C, 0xC6, 0xC6, 0x7C, 0x00],
  [0x7C, 0xC6, 0xC6, 0x7E, 0x06, 0x0C, 0x78, 0x00],
  [0x00, 0x18, 0x18, 0x00, 0x00, 0x18, 0x18, 0x00],
  [0x00, 0x18, 0x18, 0x00, 0x18, 0x18, 0x30, 0x00],
  [0x0E, 0x1C, 0x38, 0x70, 0x38, 0x1C, 0x0E, 0x00],
  [0x00, 0x00, 0x7E, 0x00, 0x7E, 0x00, 0x00, 0x00],
  [0x70, 0x38, 0x1C, 0x0E, 0x1C, 0x38, 0x70, 0x00],
  [0x7C, 0xC6, 0x0E, 0x1C, 0x18, 0x00, 0x18, 0x00],
  [0x7C, 0xC6, 0xDE, 0xDE, 0xDE, 0xC0, 0x7C, 0x00],
  [0x38, 0x6C, 0xC6, 0xC6, 0xFE, 0xC6, 0xC6, 0x00],
  [0xFC, 0x66, 0x66, 0x7C, 0x66, 0x66, 0xFC, 0x00],
  [0x3C, 0x66, 0xC0, 0xC0, 0xC0, 0x66, 0x3C, 0x00],
  [0xF8, 0x6C, 0x66, 0x66, 0x66, 0x6C, 0xF8, 0x00],
  [0xFE, 0x62, 0x68, 0x78, 0x68, 0x62, 0xFE, 0x00],
  [0xFE, 0x62, 0x68, 0x78, 0x68, 0x60, 0xF0, 0x00],
  [0x3C, 0x66, 0xC0, 0xC0, 0xCE, 0x66, 0x3E, 0x00],
  [0xC6, 0xC6, 0xC6, 0xFE, 0xC6, 0xC6, 0xC6, 0x00],
  [0x3C, 0x18, 0x18, 0x18, 0x18, 0x18, 0x3C, 0x00],
  [0x1E, 0x0C, 0x0C, 0x0C, 0xCC, 0xCC, 0x78, 0x00],
  [0xE6, 0x66, 0x6C, 0x78, 0x6C, 0x66, 0xE6, 0x00],
  [0xF0, 0x60, 0x60, 0x60, 0x62, 0x66, 0xFE, 0x00],
  [0xC6, 0xEE, 0xFE, 0xFE, 0xD6, 0xC6, 0xC6, 0x00],
  [0xC6, 0xE6, 0xF6, 0xDE, 0xCE, 0xC6, 0xC6, 0x00],
  [0x38, 0x6C, 0xC6, 0xC6, 0xC6, 0x6C, 0x38, 0x00],
  [0xFC, 0x66, 0x66, 0x7C, 0x60, 0x60, 0xF0, 0x00],
  [0x38, 0x6C, 0xC6, 0xC6, 0xDA, 0xCC, 0x76, 0x00],
  [0xFC, 0x66, 0x66, 0x7C, 0x6C, 0x66, 0xE6, 0x00],
  [0x7C, 0xC6, 0x60, 0x38, 0x0C, 0xC6, 0x7C, 0x00],
  [0x7E, 0x7E, 0x5A, 0x18, 0x18, 0x18, 0x3C, 0x00],
  [0xC6, 0xC6, 0xC6, 0xC6, 0xC6, 0xC6, 0x7C, 0x00],
  [0xC6, 0xC6, 0xC6, 0xC6, 0xC6, 0x6C, 0x38, 0x00],
  [0xC6, 0xC6, 0xC6, 0xD6, 0xFE, 0xEE, 0xC6, 0x00],
  [0xC6, 0xC6, 0x6C, 0x38, 0x38, 0x6C, 0xC6, 0x00],
  [0x66, 0x66, 0x66, 0x3C, 0x18, 0x18, 0x3C, 0x00],
  [0xFE, 0xC6, 0x8C, 0x18, 0x32, 0x66, 0xFE, 0x00],
  [0x3C, 0x30, 0x30, 0x30, 0x30, 0x30, 0x3C, 0x00],
  [0xC0, 0x60, 0x30, 0x18, 0x0C, 0x06, 0x02, 0x00],
  [0x3C, 0x0C, 0x0C, 0x0C, 0x0C, 0x0C, 0x3C, 0x00],
  [0x10, 0x38, 0x6C, 0xC6, 0x00, 0x00, 0x00, 0x00],
  [0x00, 0x00, 0x00, 0x00, 0x00, 0x00, 0x00, 0xFF],
  [0x30, 0x18, 0x0C, 0x00, 0x00, 0x00, 0x00, 0x00],
  [0x00, 0x00, 0x7C, 0x06, 0x7E, 0xC6, 0x7E, 0x00],
  [0xE0, 0x60, 0x7C, 0x66, 0x66, 0x66, 0xDC, 0x00],
  [0x00, 0x00, 0x7C, 0xC6, 0xC0, 0xC6, 0x7C, 0x00],
  [0x1C, 0x0C, 0x7C, 0xCC, 0xCC, 0xCC, 0x76, 0x00],
  [0x00, 0x00, 0x7C, 0xC6, 0xFE, 0xC0, 0x7C, 0x00],
  [0x3C, 0x66, 0x60, 0xF8, 0x60, 0x60, 0xF0, 0x00],
  [0x00, 0x00, 0x76, 0xCC, 0xCC, 0x7C, 0x0C, 0xF8],
  [0xE0, 0x60, 0x6C, 0x76, 0x66, 0x66, 0xE6, 0x00],
  [0x18, 0x00, 0x38, 0x18, 0x18, 0x18, 0x3C, 0x00],
  [0x06, 0x00, 0x06, 0x06, 0x06, 0x66, 0x66, 0x3C],
  [0xE0, 0x60, 0x66, 0x6C, 0x78, 0x6C, 0xE6, 0x00],
  [0x38, 0x18, 0x18, 0x18, 0x18, 0x18, 0x3C, 0x00],
  [0x00, 0x00, 0xEC, 0xFE, 0xD6, 0xD6, 0xC6, 0x00],
  [0x00, 0x00, 0xDC, 0x66, 0x66, 0x66, 0x66, 0x00],
  [0x00, 0x00, 0x7C, 0xC6, 0xC6, 0xC6, 0x7C, 0x00],
  [0x00, 0x00, 0xDC, 0x66, 0x66, 0x7C, 0x60, 0xF0],
  [0x00, 0x00, 0x76, 0xCC, 0xCC, 0x7C, 0x0C, 0x1E],
  [0x00, 0x00, 0xDC, 0x76, 0x66, 0x60, 0xF0, 0x00],
  [0x00, 0x00, 0x7E, 0xC0, 0x7C, 0x06, 0xFC, 0x00],
  [0x30, 0x30, 0xFC, 0x30, 0x30, 0x36, 0x1C, 0x00],
  [0x00, 0x00, 0xCC, 0xCC, 0xCC, 0xCC, 0x76, 0x00],
  [0x00, 0x00, 0xC6, 0xC6, 0xC6, 0x6C, 0x38, 0x00],
  [0x00, 0x00, 0xC6, 0xD6, 0xD6, 0xFE, 0x6C, 0x00],
  [0x00, 0x00, 0xC6, 0x6C, 0x38, 0x6C, 0xC6, 0x00],
  [0x00, 0x00, 0xC6, 0xC6, 0xC6, 0x7E, 0x06, 0xFC],
  [0x00, 0x00, 0xFE, 0x4C, 0x18, 0x32, 0xFE, 0x00],
  [0x0E, 0x18, 0x18, 0x70, 0x18, 0x18, 0x0E, 0x00],
  [0x18, 0x18, 0x18, 0x00, 0x18, 0x18, 0x18, 0x00],
  [0x70, 0x18, 0x18, 0x0E, 0x18, 0x18, 0x70, 0x00],
  [0x76, 0xDC, 0x00, 0x00, 0x00, 0x00, 0x00, 0x00],
  [0x00, 0x10, 0x38, 0x6C, 0xC6, 0xC6, 0xFE, 0x00]]

/-- Character codes of a string literal, as `draw_text` consumes the C
`char` pointer. -/
def text_codes (s : String) : List Nat := s.toList.map Char.toNat

/-- Decimal rendering of a C `int` as `snprintf` `%d` produces it (45 is
the ASCII code of the minus sign).  The source's 32-byte truncation is not
modelled; all rendered values are far shorter. -/
def decimal_digits (v : Int) : List Nat :=
  if v < 0 then 45 :: (Nat.toDigits 10 v.natAbs).map Char.toNat
  else (Nat.toDigits 10 v.toNat).map Char.toNat

/-- `draw_char`: glyph lookup (codes past 127 fall back to the glyph of the
question mark, code 63) and one `scale`-by-`scale` rectangle per set bit,
most significant bit leftmost. -/
def draw_char (W H : Int) (fb : Option Fb) (x y : Int) (c : Nat) (scale : Int) : Option Fb :=
  let index := if c > 127 then 63 else c
  (List.range 8).foldl (fun fb1 row =>
    let bits := (font8x8_basic.getD index []).getD row 0
    (List.range 8).foldl (fun fb2 col =>
      if bits &&& (1 <<< (7 - col)) ≠ 0 then
        display_draw_rect W H fb2 (x + (col : Int) * scale) (y + (row : Int) * scale)
          scale scale COLOR_WHITE
      else fb2) fb1) fb

/-- `draw_text`: glyphs left to right, the cursor advancing by
`8 * scale + scale` per character. -/
def draw_text (W H : Int) (fb : Option Fb) (x y : Int) (text : List Nat) (scale : Int) :
    Option Fb :=
  match text with
  | [] => fb
  | c :: rest =>
    draw_text W H (draw_char W H fb x y c scale) (x + (8 * scale) + scale) y rest scale

/-- `const int paddle_speed = 3` from `app_main`. -/
def paddle_speed : Int := 3

/-- `game_state_t` from the source. -/
inductive game_state_t where
  | START
  | RUN
  | PAUSE
  deriving Repr, DecidableEq

/-- The mutable state that survives from one iteration of the `app_main`
loop to the next: game state, entities, session highscore, framebuffer. -/
structure LoopState where
  state : game_state_t
  ents : GameEnts
  highscore : Int
  fb : Option Fb

/-- What one loop iteration produces: the next `LoopState`, the bitmap
flushed to the panel this tick (`none` when nothing was flushed), and
whether `nvs_save_highscore` was called. -/
structure TickOut where
  ls : LoopState
  flushed : Option Fb
  saved : Bool

/-- Lines 612-618 of the source: apply held left/right inputs at
`paddle_speed` and clamp to `[0, SCREEN_W - PADDLE_W]`. -/
def paddle_after_input (W px : Int) (left_pressed right_pressed : Bool) : Int :=
  let px1 := if left_pressed then px - paddle_speed else px
  let px2 := if right_pressed then px1 + paddle_speed else px1
  clamp px2 0 (W - PADDLE_W W)

/-- `game_render`: clear, paddle and ball rectangles, HUD text (wide
highscore variant or compact variant), optional PAUSE label, flush.
Returns the new framebuffer and the flushed bitmap. -/
def game_render (W H BS : Int) (panel : Bool) (fb : Option Fb) (g : GameEnts)
    (show_highscore : Bool) (highscore : Int) (paused : Bool) : Option Fb × Option Fb :=
  let fb1 := display_clear W H fb COLOR_BLACK
  let paddle_y := H - PADDLE_H - 2
  let fb2 := display_draw_rect W H fb1 g.paddle paddle_y (PADDLE_W W) PADDLE_H COLOR_WHITE
  let fb3 := display_draw_rect W H fb2 g.ball.x g.ball.y BS BS COLOR_WHITE
  let buf :=
    if show_highscore then
      (text_codes "HISCORE:") ++ decimal_digits highscore ++ (text_codes " H:")
        ++ decimal_digits g.hits ++ (text_codes " F:") ++ decimal_digits g.misses
    else
      (text_codes "H:") ++ decimal_digits g.hits ++ (text_codes " F:")
        ++ decimal_digits g.misses
  let hud_scale : Int := if show_highscore then 1 else 2
  let fb4 := draw_text W H fb3 2 2 buf hud_scale
  let fb5 :=
    if paused then
      draw_text W H fb4 (W.tdiv 2 - 20) (H.tdiv 2 - 4) (text_codes "PAUSE") 1
    else fb4
  (fb5, display_flush panel fb5)

/-- `render_start_screen`: clear, centered title, centered highscore line,
bottom hint, flush.  Returns the new framebuffer and the flushed bitmap. -/
def render_start_screen (W H : Int) (panel : Bool) (fb : Option Fb) (highscore : Int) :
    Option Fb × Option Fb :=
  let fb1 := display_clear W H fb COLOR_BLACK
  let title := text_codes "PONG"
  let title_scale : Int := 3
  let title_w : Int := (title.length : Int) * ((8 * title_scale) + title_scale)
  let title_x := (W - title_w).tdiv 2
  let fb2 := draw_text W H fb1 title_x 20 title title_scale
  let buf := (text_codes "HIGH:") ++ decimal_digits highscore
  let info_scale : Int := 2
  let info_w : Int := (buf.length : Int) * ((8 * info_scale) + info_scale)
  let info_x := (W - info_w).tdiv 2
  let fb3 := draw_text W H fb2 info_x 70 buf info_scale
  let fb4 := draw_text W H fb3 20 (H - 20) (text_codes "PRESS BOOT") 1
  (fb4, display_flush panel fb4)

/-- One iteration of the `while (true)` loop of `app_main`, lines 593-651,
with the debounced inputs of this tick as booleans: pause-edge handling,
paddle movement and clamping, then — by the updated state — the start
screen, or physics with highscore maintenance and the fail-limit reset
(which renders nothing that tick), or the frozen pause frame. -/
def tick (W H BS : Int) (panel : Bool) (ls : LoopState)
    (pause_edge left_pressed right_pressed show_highscore : Bool) : TickOut :=
  let st1 :=
    if pause_edge then
      match ls.state with
      | game_state_t.START => game_state_t.RUN
      | game_state_t.RUN => game_state_t.PAUSE
      | game_state_t.PAUSE => game_state_t.RUN
    else ls.state
  let ents0 :=
    if pause_edge then
      match ls.state with
      | game_state_t.START => game_reset W H
      | _ => ls.ents
    else ls.ents
  let ents1 := { ents0 with paddle := paddle_after_input W ents0.paddle left_pressed right_pressed }
  if st1 = game_state_t.START then
    let r := render_start_screen W H panel ls.fb ls.highscore
    { ls := { state := st1, ents := ents1, highscore := ls.highscore, fb := r.1 }
      flushed := r.2, saved := false }
  else if st1 = game_state_t.RUN then
    let ents2 := game_step W H BS ents1
    let save := ents2.hits > ls.highscore
    let hs1 := if save then ents2.hits else ls.highscore
    if ents2.misses ≥ FAIL_LIMIT then
      { ls := { state := game_state_t.START, ents := game_reset W H, highscore := hs1, fb := ls.fb }
        flushed := none, saved := save }
    else
      let r := game_render W H BS panel ls.fb ents2 show_highscore hs1 false
      { ls := { state := st1, ents := ents2, highscore := hs1, fb := r.1 }
        flushed := r.2, saved := save }
  else
    let r := game_render W H BS panel ls.fb ents1 show_highscore ls.highscore true
    { ls := { state := st1, ents := ents1, highscore := ls.highscore, fb := r.1 }
      flushed := r.2, saved := false }

/-- C truncating division of two nonnegative values is `Nat` division. -/
theorem tdiv_ofNat (a b : Nat) : Int.tdiv (a : Int) (b : Int) = ((a / b : Nat) : Int) := rfl

/-- Specialization of `tdiv_ofNat` to the literal divisor 5. -/
theorem tdiv_five (a : Nat) : Int.tdiv (a : Int) 5 = ((a / 5 : Nat) : Int) := rfl

/-- Specialization of `tdiv_ofNat` to the literal divisor 2. -/
theorem tdiv_two (a : Nat) : Int.tdiv (a : Int) 2 = ((a / 2 : Nat) : Int) := rfl

/-- C1: the speed used by the physics engine is
`min(maxSpeed, baseSpeed + hits / stepHits)` with floor division on
nonnegative `hits`; it is non-decreasing in `hits`, equals the base speed
at `hits = 0` (and takes no other input, in particular not `misses`), and
with the configured constants `base=1, step=5, max=6` it maps
`0..4 ↦ 1`, `5..9 ↦ 2`, `25..29 ↦ 6`, `100 ↦ 6`. -/
theorem C1_speed_ramp :
    (∀ hits : Int, 0 ≤ hits →
      ball_speed_for_hits hits
        = min BALL_MAX_SPEED (BALL_BASE_SPEED + hits.tdiv BALL_SPEED_STEP_HITS)) ∧
    (∀ h1 h2 : Int, 0 ≤ h1 → h1 ≤ h2 →
      ball_speed_for_hits h1 ≤ ball_speed_for_hits h2) ∧
    ball_speed_for_hits 0 = BALL_BASE_SPEED ∧
    (∀ h : Int, 0 ≤ h → h ≤ 4 → ball_speed_for_hits h = 1) ∧
    (∀ h : Int, 5 ≤ h → h ≤ 9 → ball_speed_for_hits h = 2) ∧
    (∀ h : Int, 25 ≤ h → h ≤ 29 → ball_speed_for_hits h = 6) ∧
    ball_speed_for_hits 100 = 6 := by
  refine ⟨?_, ?_, by decide, ?_, ?_, ?_, by decide⟩
  · intro hits hnn
    obtain ⟨n, rfl⟩ := Int.eq_ofNat_of_zero_le hnn
    simp only [ball_speed_for_hits, BALL_BASE_SPEED, BALL_MAX_SPEED,
      BALL_SPEED_STEP_HITS, tdiv_five]
    split <;> omega
  · intro h1 h2 hnn hle
    obtain ⟨n, rfl⟩ := Int.eq_ofNat_of_zero_le hnn
    obtain ⟨m, rfl⟩ := Int.eq_ofNat_of_zero_le (le_trans hnn hle)
    simp only [ball_speed_for_hits, BALL_BASE_SPEED, BALL_MAX_SPEED,
      BALL_SPEED_STEP_HITS, tdiv_five]
    have hnm : n ≤ m := by exact_mod_cast hle
    have hdiv : n / 5 ≤ m / 5 := Nat.div_le_div_right hnm
    split <;> split <;> omega
  · intro h h0 h4
    obtain ⟨n, rfl⟩ := Int.eq_ofNat_of_zero_le h0
    simp only [ball_speed_for_hits, BALL_BASE_SPEED, BALL_MAX_SPEED,
      BALL_SPEED_STEP_HITS, tdiv_five]
    have hn : n ≤ 4 := by exact_mod_cast h4
    interval_cases n <;> decide
  · intro h h5 h9
    have h0 : (0 : Int) ≤ h := by omega
    obtain ⟨n, rfl⟩ := Int.eq_ofNat_of_zero_le h0
    simp only [ball_speed_for_hits, BALL_BASE_SPEED, BALL_MAX_SPEED,
      BALL_SPEED_STEP_HITS, tdiv_five]
    have hn5 : 5 ≤ n := by exact_mod_cast h5
    have hn9 : n ≤ 9 := by exact_mod_cast h9
    interval_cases n <;> decide
  · intro h h25 h29
    have h0 : (0 : Int) ≤ h := by omega
    obtain ⟨n, rfl⟩ := Int.eq_ofNat_of_zero_le h0
    simp only [ball_speed_for_hits, BALL_BASE_SPEED, BALL_MAX_SPEED,
      BALL_SPEED_STEP_HITS, tdiv_five]
    have hn5 : 25 ≤ n := by exact_mod_cast h25
    have hn9 : n ≤ 29 := by exact_mod_cast h29
    interval_cases n <;> decide

/-- Witness for C1 at concrete inputs. -/
theorem C1_speed_ramp_witness :
    ball_speed_for_hits 7
      = min BALL_MAX_SPEED (BALL_BASE_SPEED + Int.tdiv 7 BALL_SPEED_STEP_HITS) ∧
    ball_speed_for_hits 3 ≤ ball_speed_for_hits 12 ∧
    ball_speed_for_hits 27 = 6 :=
  ⟨C1_speed_ramp.1 7 (by decide),
   C1_speed_ramp.2.1 3 12 (by decide) (by decide),
   C1_speed_ramp.2.2.2.2.2.1 27 (by decide) (by decide)⟩

/-- C6: the ball's horizontal and vertical speed magnitudes are equal after
initialization, after every reset, and the equality is preserved by every
physics step (wall bounces mirror one component, paddle hits and misses set
both components to a common ramp magnitude). -/
theorem C6_diagonal_invariant :
    (∀ W H : Int, ((initial_ball W H).vx).natAbs = ((initial_ball W H).vy).natAbs) ∧
    (∀ W H : Int, ((game_reset W H).ball.vx).natAbs = ((game_reset W H).ball.vy).natAbs) ∧
    (∀ W H BS : Int, ∀ g : GameEnts,
      (g.ball.vx).natAbs = (g.ball.vy).natAbs →
      ((game_step W H BS g).ball.vx).natAbs = ((game_step W H BS g).ball.vy).natAbs) := by
  refine ⟨fun W H => rfl, fun W H => rfl, fun W H BS g hsym => ?_⟩
  simp only [game_step]
  split_ifs <;> simp [Int.natAbs_neg, hsym]

/-- Witness for C6 at a concrete game state. -/
theorem C6_diagonal_invariant_witness :
    ((game_step 240 240 6
        { ball := { x := 10, y := 20, vx := 2, vy := -2 }
          paddle := 96, hits := 7, misses := 1 }).ball.vx).natAbs
      = ((game_step 240 240 6
        { ball := { x := 10, y := 20, vx := 2, vy := -2 }
          paddle := 96, hits := 7, misses := 1 }).ball.vy).natAbs :=
  C6_diagonal_invariant.2.2 240 240 6
    { ball := { x := 10, y := 20, vx := 2, vy := -2 }
      paddle := 96, hits := 7, misses := 1 } (by decide)

/-- C7: a ball at `x = 0` with `vx = -2` and size 6, stepped once with no
top-wall or paddle-band interaction, ends with `vx = +2` while its position
is exactly the integrated one (`x + vx`, `y + vy`): the mirror changes only
the velocity, so only the next integration step moves the ball right. -/
theorem C7_left_wall_mirror (W H BS : Int) (g : GameEnts)
    (hx : g.ball.x = 0) (hvx : g.ball.vx = -2) (hBS : BS = 6)
    (_hW : 10 ≤ W)
    (htop : 0 < g.ball.y + g.ball.vy)
    (hband : g.ball.y + g.ball.vy + BS < H - PADDLE_H - 2) :
    (game_step W H BS g).ball.vx = 2 ∧
    (game_step W H BS g).ball.x = g.ball.x + g.ball.vx ∧
    (game_step W H BS g).ball.y = g.ball.y + g.ball.vy ∧
    (game_step W H BS g).ball.vy = g.ball.vy := by
  simp only [game_step]
  rw [if_neg (by omega)]
  refine ⟨?_, rfl, rfl, ?_⟩
  · simp only
    rw [if_pos (Or.inl (by omega)), hvx]
    decide
  · simp only
    rw [if_neg (by omega)]

/-- Witness for C7 at a concrete game state. -/
theorem C7_left_wall_mirror_witness :
    (game_step 240 240 6
      { ball := { x := 0, y := 100, vx := -2, vy := 2 }
        paddle := 96, hits := 3, misses := 0 }).ball.vx = 2 ∧
    (game_step 240 240 6
      { ball := { x := 0, y := 100, vx := -2, vy := 2 }
        paddle := 96, hits := 3, misses := 0 }).ball.x = 0 + -2 ∧
    (game_step 240 240 6
      { ball := { x := 0, y := 100, vx := -2, vy := 2 }
        paddle := 96, hits := 3, misses := 0 }).ball.y = 100 + 2 ∧
    (game_step 240 240 6
      { ball := { x := 0, y := 100, vx := -2, vy := 2 }
        paddle := 96, hits := 3, misses := 0 }).ball.vy = 2 :=
  C7_left_wall_mirror 240 240 6
    { ball := { x := 0, y := 100, vx := -2, vy := 2 }
      paddle := 96, hits := 3, misses := 0 }
    rfl rfl rfl (by decide) (by decide) (by decide)

/-- C10: the physics step never writes the paddle; the miss branch leaves
`hits` unchanged (it recenters the ball and resets its speed magnitude to
the base value while incrementing `misses`); and a paddle hit sets the
speed magnitude from the accumulated hit counter via the ramp. -/
theorem C10_step_frame (W H BS : Int) (g : GameEnts) :
    (game_step W H BS g).paddle = g.paddle ∧
    (g.ball.y + g.ball.vy + BS ≥ H - PADDLE_H - 2 →
     ¬(g.ball.x + g.ball.vx + BS ≥ g.paddle ∧
        g.ball.x + g.ball.vx ≤ g.paddle + PADDLE_W W) →
     g.ball.y + g.ball.vy + BS ≥ H →
       (game_step W H BS g).hits = g.hits ∧
       (game_step W H BS g).misses = g.misses + 1 ∧
       (game_step W H BS g).ball.x = W.tdiv 2 ∧
       (game_step W H BS g).ball.y = H.tdiv 2 ∧
       ((game_step W H BS g).ball.vx).natAbs = (ball_speed_for_hits 0).natAbs ∧
       (game_step W H BS g).ball.vy = ball_speed_for_hits 0) ∧
    (g.ball.y + g.ball.vy + BS ≥ H - PADDLE_H - 2 →
     g.ball.x + g.ball.vx + BS ≥ g.paddle ∧
        g.ball.x + g.ball.vx ≤ g.paddle + PADDLE_W W →
       (game_step W H BS g).hits = g.hits + 1 ∧
       ((game_step W H BS g).ball.vx).natAbs
         = (ball_speed_for_hits (g.hits + 1)).natAbs ∧
       (game_step W H BS g).ball.vy = -ball_speed_for_hits (g.hits + 1)) := by
  refine ⟨?_, ?_, ?_⟩
  · simp only [game_step]
    split_ifs <;> rfl
  · intro hband hnohit hbot
    simp only [game_step]
    rw [if_pos hband, if_neg hnohit, if_pos hbot]
    refine ⟨rfl, rfl, rfl, rfl, ?_, rfl⟩
    simp only
    split_ifs <;> simp [Int.natAbs_neg]
  · intro hband hhit
    simp only [game_step]
    rw [if_pos hband, if_pos hhit]
    refine ⟨rfl, ?_, rfl⟩
    simp only
    split_ifs <;> simp [Int.natAbs_neg]

/-- Witness for C10: a concrete miss (ball reaches the bottom away from the
paddle) and a concrete hit (ball overlaps the paddle band). -/
theorem C10_step_frame_witness :
    ((game_step 240 240 6
        { ball := { x := 10, y := 236, vx := 2, vy := 2 }
          paddle := 96, hits := 7, misses := 1 }).hits = 7 ∧
      (game_step 240 240 6
        { ball := { x := 10, y := 236, vx := 2, vy := 2 }
          paddle := 96, hits := 7, misses := 1 }).misses = 1 + 1 ∧
      (game_step 240 240 6
        { ball := { x := 10, y := 236, vx := 2, vy := 2 }
          paddle := 96, hits := 7, misses := 1 }).ball.x = Int.tdiv 240 2 ∧
      (game_step 240 240 6
        { ball := { x := 10, y := 236, vx := 2, vy := 2 }
          paddle := 96, hits := 7, misses := 1 }).ball.y = Int.tdiv 240 2 ∧
      (((game_step 240 240 6
        { ball := { x := 10, y := 236, vx := 2, vy := 2 }
          paddle := 96, hits := 7, misses := 1 }).ball.vx).natAbs
        = (ball_speed_for_hits 0).natAbs) ∧
      (game_step 240 240 6
        { ball := { x := 10, y := 236, vx := 2, vy := 2 }
          paddle := 96, hits := 7, misses := 1 }).ball.vy
        = ball_speed_for_hits 0) ∧
    (game_step 240 240 6
        { ball := { x := 100, y := 230, vx := 2, vy := 2 }
          paddle := 96, hits := 7, misses := 1 }).hits = 7 + 1 :=
  ⟨(C10_step_frame 240 240 6
      { ball := { x := 10, y := 236, vx := 2, vy := 2 }
        paddle := 96, hits := 7, misses := 1 }).2.1
      (by decide) (by decide) (by decide),
   ((C10_step_frame 240 240 6
      { ball := { x := 100, y := 230, vx := 2, vy := 2 }
        paddle := 96, hits := 7, misses := 1 }).2.2
      (by decide) (by decide)).1⟩

/-- Pointwise effect of the inner fill loop. -/
theorem fill_row_apply (buf : Fb) (base color w i : Nat) :
    fill_row buf base color w i
      = if base ≤ i ∧ i < base + w then color else buf i := by
  induction w with
  | zero => rw [fill_row, if_neg (by omega)]
  | succ w ih =>
    rw [fill_row, Function.update_apply, ih]
    split_ifs <;> first | rfl | omega

/-- A linear index `py * Wn + px` with `px < Wn` lies in the span of the
row at `r` (columns `x ≤ px < x + w`, with `x + w ≤ Wn`) exactly when
`py = r` and the column is in range. -/
theorem index_in_row_iff (Wn x w px py r : Nat) (hpx : px < Wn) (hxw : x + w ≤ Wn) :
    (r * Wn + x ≤ py * Wn + px ∧ py * Wn + px < r * Wn + x + w)
      ↔ (py = r ∧ x ≤ px ∧ px < x + w) := by
  have hd1 : (py + 1) * Wn = py * Wn + Wn := by ring
  have hd2 : (r + 1) * Wn = r * Wn + Wn := by ring
  constructor
  · rintro ⟨hlo, hhi⟩
    have hpyr : py = r := by
      rcases Nat.lt_trichotomy py r with hlt | heq | hgt
      · have : (py + 1) * Wn ≤ r * Wn := Nat.mul_le_mul_right _ (by omega)
        omega
      · exact heq
      · have : (r + 1) * Wn ≤ py * Wn := Nat.mul_le_mul_right _ (by omega)
        omega
    subst hpyr
    omega
  · rintro ⟨rfl, hx1, hx2⟩
    omega

/-- Pointwise effect of the row loop of `display_draw_rect`. -/
theorem fill_rows_apply (buf : Fb) (Wn x y w color h px py : Nat)
    (hpx : px < Wn) (hxw : x + w ≤ Wn) :
    fill_rows buf Wn x y w color h (py * Wn + px)
      = if y ≤ py ∧ py < y + h ∧ x ≤ px ∧ px < x + w then color
        else buf (py * Wn + px) := by
  induction h with
  | zero => rw [fill_rows, if_neg (by omega)]
  | succ h ih =>
    rw [fill_rows, fill_row_apply, ih]
    have hiff := index_in_row_iff Wn x w px py (y + h) hpx hxw
    rw [show (y + h) * Wn + x + w = (y + h) * Wn + (x + w) by omega] at hiff
    rw [show (y + h) * Wn + x + w = (y + h) * Wn + (x + w) by omega]
    simp only [hiff]
    split_ifs <;> first | rfl | omega

/-- C4: over an allocated framebuffer, `display_draw_rect` writes `color`
to exactly the pixels of `[x, x+w) × [y, y+h)` that lie inside the screen
(`py` ranges over all rows of the linear index space, so rows at or past
`H` are also shown untouched; columns are `px < W`).  In particular a
rectangle that misses the screen, or whose clipped extent is empty,
mutates nothing. -/
theorem C4_draw_rect_clip (W H : Int) (buf : Fb) (x y w h : Int) (color : Nat)
    (px py : Nat) (hpx : (px : Int) < W) :
    ((display_draw_rect W H (some buf) x y w h color).getD buf) (py * W.toNat + px)
      = if x ≤ (px : Int) ∧ (px : Int) < x + w ∧
           y ≤ (py : Int) ∧ (py : Int) < y + h ∧ (py : Int) < H
        then color else buf (py * W.toNat + px) := by
  dsimp only [display_draw_rect]
  split_ifs <;> simp only [Option.getD_some] <;>
    first
      | rfl
      | (exfalso; omega)
      | · rw [fill_rows_apply _ _ _ _ _ _ _ _ _ (by omega) (by omega)]
          split_ifs <;> first | rfl | (exfalso; omega)

/-- Witness for C4: a rectangle overlapping the left edge, evaluated at a
pixel inside and recorded as overwritten. -/
theorem C4_draw_rect_clip_witness :
    ((display_draw_rect 240 240 (some (fun _ => 0)) (-3) 2 10 4 65535).getD (fun _ => 0))
        (3 * (240 : Int).toNat + 5)
      = if (-3 : Int) ≤ (5 : Nat) ∧ ((5 : Nat) : Int) < -3 + 10 ∧
           (2 : Int) ≤ (3 : Nat) ∧ ((3 : Nat) : Int) < 2 + 4 ∧ ((3 : Nat) : Int) < 240
        then 65535 else (fun _ => 0) (3 * (240 : Int).toNat + 5) :=
  C4_draw_rect_clip 240 240 (fun _ => 0) (-3) 2 10 4 65535 5 3 (by decide)

/-- After a press has been accepted (both levels 0), further 0 samples
raise no edge and leave the stable level pressed. -/
theorem run_zeros_pressed (D : Int) (m : Nat) :
    ∀ btn : button_t, btn.last_level = 0 → btn.stable_level = 0 →
    (run_samples D btn (List.replicate m 0)).2 = 0 ∧
    (run_samples D btn (List.replicate m 0)).1.stable_level = 0 := by
  induction m with
  | zero =>
    intro btn _ hs
    simp [run_samples, List.replicate, hs]
  | succ m ih =>
    intro btn hl hs
    rw [List.replicate_succ]
    simp only [run_samples]
    by_cases hg : btn.gpio < 0
    · rw [show button_update btn 0 0 D = (btn, false) by simp [button_update, hg]]
      obtain ⟨h1, h2⟩ := ih btn hl hs
      simp [h1, h2]
    · by_cases hc : btn.stable_count < D
      · have hb : button_update btn 0 0 D
            = ({ btn with stable_count := btn.stable_count + 1 }, false) := by
          simp [button_update, hg, hl, hs, hc]
        rw [hb]
        obtain ⟨h1, h2⟩ := ih { btn with stable_count := btn.stable_count + 1 } hl hs
        simp [h1, h2]
      · have hb : button_update btn 0 0 D = (btn, false) := by
          simp [button_update, hg, hl, hs, hc]
        rw [hb]
        obtain ⟨h1, h2⟩ := ih btn hl hs
        simp [h1, h2]

/-- Inside a run of 0 samples that began from a stable released button, the
counter climbs one per tick; the press edge fires exactly when it reaches
the threshold, and at most once. -/
theorem run_zeros_counting (D : Int) (_hD : 1 ≤ D) (m : Nat) :
    ∀ btn : button_t, ¬ btn.gpio < 0 → btn.last_level = 0 → btn.stable_level = 1 →
    0 ≤ btn.stable_count → btn.stable_count < D →
    (run_samples D btn (List.replicate m 0)).2
        = (if D ≤ btn.stable_count + (m : Int) then 1 else 0) ∧
    (run_samples D btn (List.replicate m 0)).1.stable_level
        = (if D ≤ btn.stable_count + (m : Int) then 0 else 1) := by
  induction m with
  | zero =>
    intro btn hg hl hs hc0 hcD
    rw [show ((0 : Nat) : Int) = 0 by rfl]
    rw [if_neg (by omega), if_neg (by omega)]
    simp [run_samples, List.replicate, hs]
  | succ m ih =>
    intro btn hg hl hs hc0 hcD
    rw [List.replicate_succ]
    simp only [run_samples]
    by_cases hedge : btn.stable_count + 1 = D
    · have hb : button_update btn 0 0 D
          = ({ btn with stable_count := btn.stable_count + 1, stable_level := 0, pressed_since := 0 }, true) := by
        simp [button_update, hg, hl, hs, hcD, hedge]
      have hb1 : (button_update btn 0 0 D).1
          = { btn with stable_count := btn.stable_count + 1, stable_level := 0, pressed_since := 0 } := by
        rw [hb]
      have hb2 : (button_update btn 0 0 D).2 = true := by rw [hb]
      obtain ⟨h1, h2⟩ :=
        run_zeros_pressed D m
          { btn with stable_count := btn.stable_count + 1, stable_level := 0, pressed_since := 0 } hl rfl
      rw [hb1, hb2, h1, h2]
      constructor
      · rw [if_pos (show D ≤ btn.stable_count + ((m + 1 : Nat) : Int) by omega)]
        simp
      · rw [if_pos (show D ≤ btn.stable_count + ((m + 1 : Nat) : Int) by omega)]
    · have hb : button_update btn 0 0 D
          = ({ btn with stable_count := btn.stable_count + 1 }, false) := by
        simp [button_update, hg, hl, hs, hcD, hedge]
      have hb1 : (button_update btn 0 0 D).1
          = { btn with stable_count := btn.stable_count + 1 } := by rw [hb]
      have hb2 : (button_update btn 0 0 D).2 = false := by rw [hb]
      obtain ⟨h1, h2⟩ :=
        ih { btn with stable_count := btn.stable_count + 1 } hg hl hs (by simp; omega)
          (by simp; omega)
      simp only at h1 h2
      rw [hb1, hb2, h1, h2]
      constructor
      · by_cases hc : D ≤ btn.stable_count + 1 + (m : Int)
        · rw [if_pos hc,
              if_pos (show D ≤ btn.stable_count + ((m + 1 : Nat) : Int) by omega)]
          simp
        · rw [if_neg hc,
              if_neg (show ¬ D ≤ btn.stable_count + ((m + 1 : Nat) : Int) by omega)]
          simp
      · by_cases hc : D ≤ btn.stable_count + 1 + (m : Int)
        · rw [if_pos hc,
              if_pos (show D ≤ btn.stable_count + ((m + 1 : Nat) : Int) by omega)]
        · rw [if_neg hc,
              if_neg (show ¬ D ≤ btn.stable_count + ((m + 1 : Nat) : Int) by omega)]

/-- From a stable released button, a run of `n` consecutive 0 samples
raises exactly one press edge when `n ≥ D + 1` — the tick on which the
stability counter, reset by the first changed sample, first reaches `D` —
and none when `n ≤ D`; the stable level becomes pressed exactly in the
former case. -/
theorem run_zeros_released (D : Int) (hD : 1 ≤ D) (g c : Int) (hg : 0 ≤ g) (n : Nat) :
    (run_samples D (released_button g c) (List.replicate n 0)).2
        = (if D + 1 ≤ (n : Int) then 1 else 0) ∧
    (run_samples D (released_button g c) (List.replicate n 0)).1.stable_level
        = (if D + 1 ≤ (n : Int) then 0 else 1) := by
  cases n with
  | zero =>
    rw [if_neg (by omega), if_neg (by omega)]
    simp [run_samples, List.replicate, released_button]
  | succ m =>
    rw [List.replicate_succ]
    simp only [run_samples]
    have hb : button_update (released_button g c) 0 0 D
        = ({ released_button g c with last_level := 0, stable_count := 0 }, false) := by
      simp [button_update, released_button]
      rw [if_neg (by omega), if_neg (by omega)]
    have hb1 : (button_update (released_button g c) 0 0 D).1
        = { released_button g c with last_level := 0, stable_count := 0 } := by rw [hb]
    have hb2 : (button_update (released_button g c) 0 0 D).2 = false := by rw [hb]
    obtain ⟨h1, h2⟩ :=
      run_zeros_counting D hD m
        { released_button g c with last_level := 0, stable_count := 0 }
        (by simp [released_button]; omega) rfl rfl (by simp) (by simp; omega)
    simp only at h1 h2
    rw [hb1, hb2, h1, h2]
    constructor
    · by_cases hc : D ≤ (m : Int)
      · rw [if_pos (show D ≤ 0 + (m : Int) by omega),
            if_pos (show D + 1 ≤ ((m + 1 : Nat) : Int) by omega)]
        simp
      · rw [if_neg (show ¬ D ≤ 0 + (m : Int) by omega),
            if_neg (show ¬ D + 1 ≤ ((m + 1 : Nat) : Int) by omega)]
        simp
    · by_cases hc : D ≤ (m : Int)
      · rw [if_pos (show D ≤ 0 + (m : Int) by omega),
            if_pos (show D + 1 ≤ ((m + 1 : Nat) : Int) by omega)]
      · rw [if_neg (show ¬ D ≤ 0 + (m : Int) by omega),
            if_neg (show ¬ D + 1 ≤ ((m + 1 : Nat) : Int) by omega)]

/-- A button bound to the unbound-line sentinel never changes and never
raises an edge. -/
theorem run_unbound (D : Int) (samples : List Int) :
    ∀ btn : button_t, btn.gpio < 0 → run_samples D btn samples = (btn, 0) := by
  induction samples with
  | nil => intro btn _; rfl
  | cons l rest ih =>
    intro btn hg
    simp only [run_samples]
    rw [show button_update btn l 0 D = (btn, false) by simp [button_update, hg]]
    simp [ih btn hg]

/-- A sample sequence of 0/1 levels whose 0 runs all flip back before
reaching the debounce threshold raises no press edge and leaves the stable
level released, from any released-stable button state consistent with the
run already in progress. -/
theorem run_bounded_no_edge (D : Int) (hD : 1 ≤ D) (samples : List Int) :
    ∀ r : Int, ∀ btn : button_t, 0 ≤ r → btn.stable_level = 1 →
    (r = 0 → btn.last_level = 1) →
    (0 < r → btn.last_level = 0 ∧ btn.stable_count = r - 1 ∧ r ≤ D) →
    (∀ l ∈ samples, l = 0 ∨ l = 1) →
    zero_runs_bounded D r samples = true →
    (run_samples D btn samples).2 = 0 ∧
    (run_samples D btn samples).1.stable_level = 1 := by
  induction samples with
  | nil =>
    intro r btn _ hs _ _ _ _
    simp [run_samples, hs]
  | cons l rest ih =>
    intro r btn hrnn hs hr0 hrpos hmem hbound
    have hl01 := hmem l (List.mem_cons_self l rest)
    have hmem' : ∀ x ∈ rest, x = 0 ∨ x = 1 := fun x hx => hmem x (List.mem_cons_of_mem l hx)
    by_cases hg : btn.gpio < 0
    · rw [run_unbound D (l :: rest) btn hg]
      exact ⟨rfl, hs⟩
    simp only [run_samples]
    rcases hl01 with rfl | rfl
    · have hbound2 : r + 1 ≤ D ∧ zero_runs_bounded D (r + 1) rest = true := by
        simpa [zero_runs_bounded] using hbound
      obtain ⟨hrb, hbound'⟩ := hbound2
      by_cases hr : r = 0
      · subst hr
        have hlast := hr0 rfl
        have hb : button_update btn 0 0 D
            = ({ btn with last_level := 0, stable_count := 0 }, false) := by
          simp [button_update, hg, hlast, hs]
          omega
        rw [hb]
        obtain ⟨h1, h2⟩ := ih 1 { btn with last_level := 0, stable_count := 0 } (by omega) hs
          (fun h => absurd h (by omega)) (fun _ => by simp; omega) hmem' hbound'
        simp [h1, h2]
      · obtain ⟨hlast, hcount, hrD⟩ := hrpos (by omega)
        have hcD : btn.stable_count < D := by omega
        have hb : button_update btn 0 0 D
            = ({ btn with stable_count := btn.stable_count + 1 }, false) := by
          simp [button_update, hg, hlast, hs, hcD]
          omega
        rw [hb]
        obtain ⟨h1, h2⟩ := ih (r + 1) { btn with stable_count := btn.stable_count + 1 } (by omega) hs
          (fun h => absurd h (by omega)) (fun _ => by simp; omega) hmem' hbound'
        simp [h1, h2]
    · have hbound' : zero_runs_bounded D 0 rest = true := by
        simpa [zero_runs_bounded] using hbound
      by_cases hr : r = 0
      · have hlast := hr0 hr
        by_cases hc : btn.stable_count < D
        · have hb : button_update btn 1 0 D
              = ({ btn with stable_count := btn.stable_count + 1 }, false) := by
            simp [button_update, hg, hlast, hs, hc]
          rw [hb]
          obtain ⟨h1, h2⟩ := ih 0 { btn with stable_count := btn.stable_count + 1 } (by omega) hs
            (fun _ => by simp [hlast]) (fun hpos => absurd hpos (by omega)) hmem' hbound'
          simp [h1, h2]
        · have hb : button_update btn 1 0 D = (btn, false) := by
            simp [button_update, hg, hlast, hs, hc]
          rw [hb]
          obtain ⟨h1, h2⟩ := ih 0 btn (by omega) hs (fun _ => hlast)
            (fun hpos => absurd hpos (by omega)) hmem' hbound'
          simp [h1, h2]
      · obtain ⟨hlast, hcount, hrD⟩ := hrpos (by omega)
        have hb : button_update btn 1 0 D
            = ({ btn with last_level := 1, stable_count := 0 }, false) := by
          simp [button_update, hg, hlast, hs]
        rw [hb]
        obtain ⟨h1, h2⟩ := ih 0 { btn with last_level := 1, stable_count := 0 } (by omega) hs
          (fun _ => by simp) (fun hpos => absurd hpos (by omega)) hmem' hbound'
        simp [h1, h2]

/-- C2 counterexample: with the source's `debounce_cycles = 3`, a stable
released button fed the new level 0 for exactly `debounceThreshold = 3`
consecutive ticks fires no press edge and keeps stable level 1 — the claim
predicts exactly one edge for any run of at least `debounceThreshold`
ticks.  The first changed sample only resets the counter to 0, so three
samples bring it to 2, short of the threshold. -/
theorem C2_counterexample :
    (run_samples 3 (released_button 0 3) (List.replicate 3 0)).2 = 0 ∧
    (run_samples 3 (released_button 0 3) (List.replicate 3 0)).1.stable_level = 1 := by
  decide

/-- C2 (amended): a new stable level must persist for
`debounceThreshold + 1` consecutive ticks — the first changed sample resets
the counter, each further one increments it.  Then exactly one press edge
fires, on the tick where the counter first reaches the threshold (the run's
`(D+1)`-th tick), and the stable level flips to pressed; a 0/1 sample train
whose 0-runs all flip back while still at most `debounceThreshold` long
fires no edge and leaves the stable level released. -/
theorem C2_debounce_amended (D : Int) (hD : 1 ≤ D) (g c : Int) (hg : 0 ≤ g) :
    (∀ n : Nat,
      (run_samples D (released_button g c) (List.replicate n 0)).2
          = (if D + 1 ≤ (n : Int) then 1 else 0) ∧
      (run_samples D (released_button g c) (List.replicate n 0)).1.stable_level
          = (if D + 1 ≤ (n : Int) then 0 else 1)) ∧
    (∀ samples : List Int, (∀ l ∈ samples, l = 0 ∨ l = 1) →
      zero_runs_bounded D 0 samples = true →
      (run_samples D (released_button g c) samples).2 = 0 ∧
      (run_samples D (released_button g c) samples).1.stable_level = 1) := by
  refine ⟨fun n => run_zeros_released D hD g c hg n, fun samples hmem hbound => ?_⟩
  exact run_bounded_no_edge D hD samples 0 (released_button g c) le_rfl rfl (fun _ => rfl)
    (fun hpos => absurd hpos (by omega)) hmem hbound

/-- Witness for C2 (amended) at the source's `debounce_cycles = 3`: a press
held 4 ticks fires exactly one edge; a bounce of two 0 samples fires none. -/
theorem C2_debounce_amended_witness :
    ((run_samples 3 (released_button 0 0) (List.replicate 4 0)).2
        = (if (3 : Int) + 1 ≤ ((4 : Nat) : Int) then 1 else 0)) ∧
    (run_samples 3 (released_button 0 0) [0, 0, 1]).2 = 0 :=
  ⟨((C2_debounce_amended 3 (by decide) 0 0 (by decide)).1 4).1,
   ((C2_debounce_amended 3 (by decide) 0 0 (by decide)).2 [0, 0, 1]
      (by decide) (by decide)).1⟩

/-- The clamp of the source keeps its value between its bounds whenever
they are ordered. -/
theorem clamp_mem (v lo hi : Int) (h : lo ≤ hi) : lo ≤ clamp v lo hi ∧ clamp v lo hi ≤ hi := by
  unfold clamp
  split_ifs <;> omega

/-- The physics step reads but never writes the paddle. -/
theorem game_step_paddle (W H BS : Int) (g : GameEnts) :
    (game_step W H BS g).paddle = g.paddle := by
  simp only [game_step]
  split_ifs <;> rfl

/-- The physics step raises `misses` by at most one. -/
theorem game_step_misses_le (W H BS : Int) (g : GameEnts) :
    (game_step W H BS g).misses ≤ g.misses + 1 := by
  simp only [game_step]
  split_ifs <;> simp

/-- A fold whose step function sends a null framebuffer to a null
framebuffer keeps it null. -/
theorem foldl_preserves_none {α : Type} (f : Option Fb → α → Option Fb)
    (hf : ∀ a, f none a = none) : ∀ l : List α, l.foldl f none = none := by
  intro l
  induction l with
  | nil => rfl
  | cons a l ih =>
    rw [List.foldl_cons, hf]
    exact ih

/-- With a null framebuffer, `draw_char` draws nothing. -/
theorem draw_char_none (W H x y : Int) (c : Nat) (scale : Int) :
    draw_char W H none x y c scale = none := by
  unfold draw_char
  apply foldl_preserves_none
  intro row
  apply foldl_preserves_none
  intro col
  split <;> split <;> rfl

/-- With a null framebuffer, `draw_text` draws nothing. -/
theorem draw_text_none (W H y scale : Int) :
    ∀ (text : List Nat) (x : Int), draw_text W H none x y text scale = none := by
  intro text
  induction text with
  | nil => intro x; rfl
  | cons c rest ih =>
    intro x
    rw [draw_text, draw_char_none]
    exact ih _

/-- With a null framebuffer, `game_render` neither draws nor flushes. -/
theorem game_render_none (W H BS : Int) (panel : Bool) (g : GameEnts)
    (shs : Bool) (hs : Int) (p : Bool) :
    game_render W H BS panel none g shs hs p = (none, none) := by
  cases panel <;> cases p <;>
    simp [game_render, display_clear, display_draw_rect, draw_text_none, display_flush]

/-- With a null framebuffer, `render_start_screen` neither draws nor
flushes. -/
theorem render_start_screen_none (W H : Int) (panel : Bool) (hs : Int) :
    render_start_screen W H panel none hs = (none, none) := by
  cases panel <;>
    simp [render_start_screen, display_clear, draw_text_none, display_flush]

/-- C3: in a RUN tick whose physics step drives `misses` to `FAIL_LIMIT`,
the machine lands in START on that same tick with exactly the reset state
of `game_reset` — paddle centered, ball centered at base velocity, both
counters zero; and a concurrent pause edge in RUN freezes physics for the
tick (the machine goes to PAUSE with ball, hits and misses untouched), so
no pause input can preempt a fail reset that occurs. -/
theorem C3_fail_limit_reset (W H BS : Int) (panel : Bool) (ls : LoopState)
    (lp rp shs : Bool) :
    (ls.state = game_state_t.RUN →
      FAIL_LIMIT ≤ (game_step W H BS
          { ls.ents with paddle := paddle_after_input W ls.ents.paddle lp rp }).misses →
      (tick W H BS panel ls false lp rp shs).ls.state = game_state_t.START ∧
      (tick W H BS panel ls false lp rp shs).ls.ents = game_reset W H) ∧
    (ls.state = game_state_t.RUN →
      (tick W H BS panel ls true lp rp shs).ls.state = game_state_t.PAUSE ∧
      (tick W H BS panel ls true lp rp shs).ls.ents.ball = ls.ents.ball ∧
      (tick W H BS panel ls true lp rp shs).ls.ents.hits = ls.ents.hits ∧
      (tick W H BS panel ls true lp rp shs).ls.ents.misses = ls.ents.misses) := by
  constructor
  · intro hrun hfail
    simp only [tick, hrun]
    simp only [if_neg (by simp : ¬ (game_state_t.RUN = game_state_t.START)),
      if_pos rfl, Bool.false_eq_true, if_false]
    have hfail2 : (game_step W H BS
        { ball := ls.ents.ball, paddle := paddle_after_input W ls.ents.paddle lp rp,
          hits := ls.ents.hits, misses := ls.ents.misses }).misses ≥ FAIL_LIMIT := hfail
    rw [if_pos hfail2]
    exact ⟨rfl, rfl⟩
  · intro hrun
    simp only [tick, hrun]
    simp [paddle_after_input]

/-- Witness for C3: a concrete RUN tick at `misses = 9` whose step is a
miss, and a concrete RUN tick with a pause edge. -/
theorem C3_fail_limit_reset_witness :
    ((tick 240 240 6 true
        { state := game_state_t.RUN
          ents := { ball := { x := 10, y := 236, vx := 2, vy := 2 }
                    paddle := 96, hits := 7, misses := 9 }
          highscore := 12, fb := none }
        false false false false).ls.state = game_state_t.START ∧
      (tick 240 240 6 true
        { state := game_state_t.RUN
          ents := { ball := { x := 10, y := 236, vx := 2, vy := 2 }
                    paddle := 96, hits := 7, misses := 9 }
          highscore := 12, fb := none }
        false false false false).ls.ents = game_reset 240 240) ∧
    (tick 240 240 6 true
        { state := game_state_t.RUN
          ents := { ball := { x := 10, y := 236, vx := 2, vy := 2 }
                    paddle := 96, hits := 7, misses := 9 }
          highscore := 12, fb := none }
        true false false false).ls.state = game_state_t.PAUSE := by
  refine ⟨?_, ?_⟩
  · exact (C3_fail_limit_reset 240 240 6 true
      { state := game_state_t.RUN
        ents := { ball := { x := 10, y := 236, vx := 2, vy := 2 }
                  paddle := 96, hits := 7, misses := 9 }
        highscore := 12, fb := none } false false false).1 rfl (by decide)
  · exact ((C3_fail_limit_reset 240 240 6 true
      { state := game_state_t.RUN
        ents := { ball := { x := 10, y := 236, vx := 2, vy := 2 }
                  paddle := 96, hits := 7, misses := 9 }
        highscore := 12, fb := none } false false false).2 rfl).1

/-- C5: after any tick of the main loop — in any state, for any held
left/right inputs and any (even wildly out-of-range) incoming paddle
position — the paddle satisfies `0 ≤ x ≤ screenWidth - paddleWidth`. -/
theorem C5_paddle_clamped (W H BS : Int) (panel : Bool) (ls : LoopState)
    (pe lp rp shs : Bool) (hW : 0 ≤ W) :
    0 ≤ (tick W H BS panel ls pe lp rp shs).ls.ents.paddle ∧
    (tick W H BS panel ls pe lp rp shs).ls.ents.paddle ≤ W - PADDLE_W W := by
  obtain ⟨w, rfl⟩ := Int.eq_ofNat_of_zero_le hW
  have hlohi : (0 : Int) ≤ (w : Int) - PADDLE_W w := by
    rw [PADDLE_W, tdiv_five]
    omega
  have hinp : ∀ px : Int, 0 ≤ paddle_after_input w px lp rp ∧
      paddle_after_input w px lp rp ≤ (w : Int) - PADDLE_W w := by
    intro px
    unfold paddle_after_input
    exact clamp_mem _ _ _ hlohi
  have hreset : 0 ≤ (game_reset w H).paddle ∧
      (game_reset w H).paddle ≤ (w : Int) - PADDLE_W w := by
    simp only [game_reset, PADDLE_W, tdiv_five, tdiv_two]
    constructor <;> omega
  rcases ls with ⟨st, ents, hsc, fb⟩
  cases st <;> cases pe <;>
    simp only [tick, game_step_paddle] <;>
    split_ifs <;>
    simp only [game_step_paddle] <;>
    first
      | exact hinp _
      | exact hreset

/-- Witness for C5 at a concrete tick with an out-of-range paddle. -/
theorem C5_paddle_clamped_witness :
    0 ≤ (tick 240 240 6 true
        { state := game_state_t.RUN
          ents := { ball := { x := 10, y := 20, vx := 2, vy := 2 }
                    paddle := 100000, hits := 0, misses := 0 }
          highscore := 0, fb := none }
        false false true false).ls.ents.paddle ∧
    (tick 240 240 6 true
        { state := game_state_t.RUN
          ents := { ball := { x := 10, y := 20, vx := 2, vy := 2 }
                    paddle := 100000, hits := 0, misses := 0 }
          highscore := 0, fb := none }
        false false true false).ls.ents.paddle ≤ 240 - PADDLE_W 240 :=
  C5_paddle_clamped 240 240 6 true
    { state := game_state_t.RUN
      ents := { ball := { x := 10, y := 20, vx := 2, vy := 2 }
                paddle := 100000, hits := 0, misses := 0 }
      highscore := 0, fb := none }
    false false true false (by decide)

/-- C9: the session highscore never decreases across a tick; the
persistence store is written exactly on ticks where it strictly increases
(equality with `hits` triggers no save); and after a RUN tick's update
step the highscore dominates the stepped hit counter. -/
theorem C9_highscore_monotone (W H BS : Int) (panel : Bool) (ls : LoopState)
    (pe lp rp shs : Bool) :
    ls.highscore ≤ (tick W H BS panel ls pe lp rp shs).ls.highscore ∧
    ((tick W H BS panel ls pe lp rp shs).saved = true ↔
      ls.highscore < (tick W H BS panel ls pe lp rp shs).ls.highscore) ∧
    (ls.state = game_state_t.RUN → pe = false →
      (game_step W H BS
          { ball := ls.ents.ball, paddle := paddle_after_input W ls.ents.paddle lp rp,
            hits := ls.ents.hits, misses := ls.ents.misses }).hits
        ≤ (tick W H BS panel ls pe lp rp shs).ls.highscore) := by
  rcases ls with ⟨st, ents, hsc, fb⟩
  cases st <;> cases pe <;>
    simp only [tick] <;>
    split_ifs <;>
    simp_all [decide_eq_true_eq] <;>
    omega

/-- Witness for C9: a RUN tick whose paddle hit pushes `hits` past the
highscore, triggering a save. -/
theorem C9_highscore_monotone_witness :
    (7 : Int) ≤ (tick 240 240 6 true
        { state := game_state_t.RUN
          ents := { ball := { x := 100, y := 230, vx := 2, vy := 2 }
                    paddle := 96, hits := 7, misses := 1 }
          highscore := 7, fb := none }
        false false false false).ls.highscore ∧
    (game_step 240 240 6
        { ball := { x := 100, y := 230, vx := 2, vy := 2 }
          paddle := paddle_after_input 240 96 false false, hits := 7, misses := 1 }).hits
      ≤ (tick 240 240 6 true
        { state := game_state_t.RUN
          ents := { ball := { x := 100, y := 230, vx := 2, vy := 2 }
                    paddle := 96, hits := 7, misses := 1 }
          highscore := 7, fb := none }
        false false false false).ls.highscore :=
  ⟨(C9_highscore_monotone 240 240 6 true
      { state := game_state_t.RUN
        ents := { ball := { x := 100, y := 230, vx := 2, vy := 2 }
                  paddle := 96, hits := 7, misses := 1 }
        highscore := 7, fb := none }
      false false false false).1,
   (C9_highscore_monotone 240 240 6 true
      { state := game_state_t.RUN
        ents := { ball := { x := 100, y := 230, vx := 2, vy := 2 }
                  paddle := 96, hits := 7, misses := 1 }
        highscore := 7, fb := none }
      false false false false).2.2 rfl rfl⟩

set_option maxHeartbeats 1600000 in
/-- C8: with a null framebuffer every rendering primitive — clear,
rectangle fill, flush — is a no-op that mutates and emits nothing; a tick
keeps the framebuffer null and flushes nothing; and the game-visible
outcome of a tick (state, entities, highscore, save decision) is the same
for every framebuffer value, so the loop keeps running and consuming input
exactly as before. -/
theorem C8_null_framebuffer (W H BS : Int) (panel : Bool) (x y w h : Int) (color : Nat)
    (ls : LoopState) (pe lp rp shs : Bool) (hfb : ls.fb = none) :
    display_clear W H none color = none ∧
    display_draw_rect W H none x y w h color = none ∧
    display_flush panel none = none ∧
    (tick W H BS panel ls pe lp rp shs).ls.fb = none ∧
    (tick W H BS panel ls pe lp rp shs).flushed = none ∧
    (∀ fb' : Option Fb,
      (tick W H BS panel { ls with fb := fb' } pe lp rp shs).ls.state
        = (tick W H BS panel ls pe lp rp shs).ls.state ∧
      (tick W H BS panel { ls with fb := fb' } pe lp rp shs).ls.ents
        = (tick W H BS panel ls pe lp rp shs).ls.ents ∧
      (tick W H BS panel { ls with fb := fb' } pe lp rp shs).ls.highscore
        = (tick W H BS panel ls pe lp rp shs).ls.highscore ∧
      (tick W H BS panel { ls with fb := fb' } pe lp rp shs).saved
        = (tick W H BS panel ls pe lp rp shs).saved) := by
  rcases ls with ⟨st, ents, hsc, fb⟩
  simp only at hfb
  subst hfb
  refine ⟨rfl, rfl, ?_, ?_, ?_, ?_⟩
  · cases panel <;> rfl
  · cases st <;> cases pe <;>
      simp only [tick] <;>
      split_ifs <;>
      simp [game_render_none, render_start_screen_none]
  · cases st <;> cases pe <;>
      simp only [tick] <;>
      split_ifs <;>
      simp [game_render_none, render_start_screen_none]
  · intro fb'
    cases st <;> cases pe <;>
      simp only [tick] <;>
      split_ifs <;>
      exact ⟨rfl, rfl, rfl, rfl⟩

/-- Witness for C8 at a concrete null-framebuffer loop state. -/
theorem C8_null_framebuffer_witness :
    display_clear 240 240 none 0 = none ∧
    (tick 240 240 6 true
        { state := game_state_t.RUN
          ents := { ball := { x := 10, y := 20, vx := 2, vy := 2 }
                    paddle := 96, hits := 0, misses := 0 }
          highscore := 0, fb := none }
        false false false false).ls.fb = none :=
  ⟨(C8_null_framebuffer 240 240 6 true 0 0 1 1 0
      { state := game_state_t.RUN
        ents := { ball := { x := 10, y := 20, vx := 2, vy := 2 }
                  paddle := 96, hits := 0, misses := 0 }
        highscore := 0, fb := none }
      false false false false rfl).1,
   (C8_null_framebuffer 240 240 6 true 0 0 1 1 0
      { state := game_state_t.RUN
        ents := { ball := { x := 10, y := 20, vx := 2, vy := 2 }
                  paddle := 96, hits := 0, misses := 0 }
        highscore := 0, fb := none }
      false false false false rfl).2.2.2.1⟩

end Pong
